import Mathlib

/-!
Verification of the hz-crud-api service (src/src/main.rs, src/src/auth.rs)
against its natural-language specification.

The Rust handlers are shallowly embedded as pure Lean functions.  The
relational store is modelled as explicit lists of rows threaded through each
handler; a handler returns its HTTP response together with the updated
tables and the list of transaction events it performed.  Clock reads
(`Utc::now()`), freshly generated ids (Postgres sequences), uuids and the
externally computed Argon2 digest are passed as explicit parameters.
-/

/-- An HTTP response: either a success with a status code and a JSON body,
or a failure with a status code and the error message carried in the body. -/
inductive ApiResponse (α : Type) where
  | success : Nat → α → ApiResponse α
  | failure : Nat → String → ApiResponse α
deriving Repr, DecidableEq

/-- The status code of a response. -/
def ApiResponse.status : ApiResponse α → Nat
  | .success s _ => s
  | .failure s _ => s

/-- Transaction events performed against the store by one handler call. -/
inductive TxEvent where
  | txBegin
  | txCommit
  | txRollback
deriving Repr, DecidableEq

/-! ## auth.rs : data model -/

/-- A row of the `access_tokens` table (src/src/auth.rs, queried in
`verify_auth` and mutated in `logout_organization`). -/
structure TokenRow where
  token : String
  org_id : Int
  expires_at : Int
  is_revoked : Bool
deriving Repr, DecidableEq

/-- The `AuthError` variants reachable in the embedded code paths
(src/src/auth.rs lines 52-68); database errors are not modelled because the
embedded store is total. -/
inductive AuthError where
  | Unauthorized : String → AuthError
deriving Repr, DecidableEq

/-- JWT claims (src/src/auth.rs lines 21-27).  Timestamps are UTC seconds. -/
structure Claims where
  sub : String
  exp : Int
  iat : Int
  jti : String
deriving Repr, DecidableEq

/-! ## auth.rs : functions -/

/-- The `starts_with("Bearer ")` check and `[7..]` slice shared by
`get_token_from_request` and `verify_auth`, performed on the character
list: the marker is 7 ASCII characters, so the source's byte offset 7
equals the character offset 7. -/
def bearerSplit (h : String) : Option String :=
  if "Bearer ".data.isPrefixOf h.data then some ⟨h.data.drop 7⟩ else none

/-- `get_token_from_request` (src/src/auth.rs lines 128-138): the value of
the `Authorization` header, when present and of the form `Bearer <token>`,
yields the token after the 7-character marker. -/
def get_token_from_request (authHeader : Option String) : Option String :=
  match authHeader with
  | some h => bearerSplit h
  | none => none

/-- `verify_auth` (src/src/auth.rs lines 350-395).  `authHeader` is the raw
`Authorization` header, `access_tokens` the table, `now` the value of
`Utc::now()` at the expiry check. -/
def verify_auth (authHeader : Option String) (access_tokens : List TokenRow)
    (now : Int) : Except AuthError Int :=
  match authHeader with
  | some h =>
    match bearerSplit h with
    | some token =>
      match access_tokens.find? (fun r => r.token == token) with
      | some record =>
        if record.is_revoked then
          .error (.Unauthorized "Token has been revoked")
        else if record.expires_at < now then
          .error (.Unauthorized "Token has expired")
        else
          .ok record.org_id
      | none => .error (.Unauthorized "Invalid token")
    | none =>
      .error (.Unauthorized "Missing or invalid authorization header")
  | none => .error (.Unauthorized "Missing or invalid authorization header")

/-- The tenant resolver as the amended claim C2 words it: extract the bearer
token, look the row up by exact token string, fail on a missing row, fail
`revoked` on a revoked row, fail `expired` when `now > expires_at`, and
otherwise return the row's `org_id`.  Written from the spec for comparison
with `verify_auth`. -/
def tenantResolverSpec (authHeader : Option String) (access_tokens : List TokenRow)
    (now : Int) : Except AuthError Int :=
  match get_token_from_request authHeader with
  | none => .error (.Unauthorized "Missing or invalid authorization header")
  | some token =>
    match access_tokens.find? (fun r => r.token == token) with
    | none => .error (.Unauthorized "Invalid token")
    | some row =>
      if row.is_revoked then
        .error (.Unauthorized "Token has been revoked")
      else if now > row.expires_at then
        .error (.Unauthorized "Token has expired")
      else
        .ok row.org_id

/-- `generate_token` (src/src/auth.rs lines 92-112), up to the external JWT
serialization: the claim set it signs.  The source calls `Utc::now()` twice,
once to compute `exp` (`now + Duration::days(7)`) and once for `iat`; `t1`
and `t2` are those two clock reads, `uuid` the freshly generated v4 uuid. -/
def generate_token (org_id : Int) (t1 t2 : Int) (uuid : String) : Claims :=
  { sub := toString org_id
  , exp := t1 + 7 * 86400
  , iat := t2
  , jti := uuid }

/-- `logout_organization` (src/src/auth.rs lines 315-347): with a bearer
token present, set `is_revoked = true` on every matching `access_tokens` row
and answer 200; with no bearer token answer 400.  Returns the response and
the updated table. -/
def logout_organization (authHeader : Option String)
    (access_tokens : List TokenRow) : ApiResponse String × List TokenRow :=
  match get_token_from_request authHeader with
  | some token =>
    (.success 200 "Logged out successfully",
     access_tokens.map (fun r =>
       if r.token == token then
         { r with is_revoked := true }
       else r))
  | none => (.failure 400 "No authentication token provided", access_tokens)

/-! ## auth.rs : password hashing

`hash_password` and `verify_password` (src/src/auth.rs lines 71-89) defer
the digest computation to the external argon2 crate.  The PHC string
handling (serialization in `to_string`, parsing in `PasswordHash::new`) is
embedded; the digest itself is an abstract parameter
`ar : salt → password → digest`. -/

/-- Split a character list at each occurrence of `sep`; the result is the
first field paired with the remaining fields. -/
def splitCharAux (sep : Char) : List Char → List Char × List (List Char)
  | [] => ([], [])
  | c :: cs =>
    let r := splitCharAux sep cs
    if c = sep then ([], r.1 :: r.2) else (c :: r.1, r.2)

/-- All fields of a character list split at `sep`. -/
def splitChar (sep : Char) (l : List Char) : List (List Char) :=
  (splitCharAux sep l).1 :: (splitCharAux sep l).2

/-- The components of a parsed PHC hash string
`$<algorithm>$<version>$<params>$<salt>$<output>`. -/
structure PasswordHashParts where
  algorithm : String
  version : String
  params : String
  salt : String
  output : String
deriving Repr, DecidableEq

/-- Model of `PasswordHash::new` from the argon2 crate (external
collaborator): parse a PHC string into its five `$`-separated components,
failing on any other shape or an empty algorithm identifier. -/
def phcParse (s : String) : Option PasswordHashParts :=
  match splitChar '$' s.data with
  | [[], alg, ver, params, salt, out] =>
    if alg = [] then none
    else some ⟨alg.asString, ver.asString, params.asString, salt.asString, out.asString⟩
  | _ => none

/-- The PHC prefix produced by `Argon2::default()` in the argon2 crate:
algorithm argon2id, version 19, default memory/time/parallelism costs. -/
def argon2Header : String :=
  "$" ++ "argon2id" ++ "$" ++ "v=19" ++ "$" ++ "m=19456,t=2,p=1" ++ "$"

/-- `hash_password` (src/src/auth.rs lines 71-79): serialize the PHC string
for the freshly generated `salt` and the digest `ar salt password`, and
return it together with the salt, as the source's `(hash, salt)` pair. -/
def hash_password (ar : String → String → String) (salt password : String) :
    String × String :=
  (argon2Header ++ salt ++ "$" ++ ar salt password, salt)

/-- `verify_password` (src/src/auth.rs lines 82-89): parse the stored hash,
returning `false` on a malformed hash, and otherwise recompute the digest
with the parsed salt and compare. -/
def verify_password (ar : String → String → String) (password stored : String) :
    Bool :=
  match phcParse stored with
  | none => false
  | some parts =>
    parts.algorithm == "argon2id" && ar parts.salt password == parts.output

example : verify_password (fun _ p => p) "x" "nothash" = false := by decide
example :
    verify_password (fun _ p => p) "x" (hash_password (fun _ p => p) "s" "x").1 = true := by
  decide

/-! ## main.rs : dates

The handlers accept date fields as `YYYY-MM-DD` strings and parse them with
`NaiveDate::parse_from_str(s, "%Y-%m-%d")` from the external chrono crate;
stored dates are rendered back with `::text` casts.  `parseDate` and
`renderDate` model that round trip: a calendar date is a year/month/day
triple, parsing requires a four-digit year and one- or two-digit month and
day fields in range (chrono's exact per-month day validation is abstracted
to the 1..31 range, which no claim exercises), and rendering zero-pads. -/

/-- A calendar date as stored by the relational store's `DATE` columns. -/
structure Date where
  year : Int
  month : Nat
  day : Nat
deriving Repr, DecidableEq

/-- The numeric value of a digit string. -/
def digitsVal (l : List Char) : Nat :=
  l.foldl (fun acc c => acc * 10 + (c.toNat - 48)) 0

/-- Model of `NaiveDate::parse_from_str(s, "%Y-%m-%d")` (external chrono
crate): split on `-`, require digit fields of the right widths and in-range
month and day values. -/
def parseDate (s : String) : Option Date :=
  match splitChar '-' s.data with
  | [y, m, d] =>
    if y.length = 4 && y.all Char.isDigit
        && decide (0 < m.length) && m.length ≤ 2 && m.all Char.isDigit
        && decide (0 < d.length) && d.length ≤ 2 && d.all Char.isDigit then
      let mv := digitsVal m
      let dv := digitsVal d
      if 1 ≤ mv && mv ≤ 12 && 1 ≤ dv && dv ≤ 31 then
        some ⟨(digitsVal y : Int), mv, dv⟩
      else none
    else none
  | _ => none

/-- Zero-pad a month or day number to two characters. -/
def pad2 (n : Nat) : String :=
  if n < 10 then "0" ++ toString n else toString n

/-- Zero-pad a (non-negative) year to four characters. -/
def padYear (n : Int) : String :=
  if n < 10 then "000" ++ toString n
  else if n < 100 then "00" ++ toString n
  else if n < 1000 then "0" ++ toString n
  else toString n

/-- Model of the store's `date::text` rendering of a stored date. -/
def renderDate (d : Date) : String :=
  padYear d.year ++ "-" ++ pad2 d.month ++ "-" ++ pad2 d.day

example : parseDate "2024-01-01" = some ⟨2024, 1, 1⟩ := by decide
example : parseDate "not-a-date" = none := by decide
example : renderDate ⟨2024, 1, 1⟩ = "2024-01-01" := by decide

/-! ## main.rs : organizations -/

/-- The `Organization` entity (src/src/main.rs lines 12-17). -/
structure Organization where
  id : Option Int
  name : String
  email : String
deriving Repr, DecidableEq

/-- A row of the `organizations` table as selected by the org handlers. -/
structure OrgRow where
  id : Int
  name : String
  email : String
deriving Repr, DecidableEq

/-- `get_organization` (src/src/main.rs lines 170-191): select the row whose
`id` matches the path parameter — the handler takes no caller identity and
applies no organization filter — answering 200 with the row or 404. -/
def get_organization (id : Int) (organizations : List OrgRow) :
    ApiResponse Organization :=
  match organizations.find? (fun r => r.id == id) with
  | some org => .success 200 ⟨some org.id, org.name, org.email⟩
  | none => .failure 404 "Organization not found"

/-! ## main.rs : ingredients and recipes -/

/-- A row of the `ingredients` table. -/
structure IngredientRow where
  id : Int
  lotcode : String
  name : String
  date : Date
  org_id : Int
deriving Repr, DecidableEq

/-- Modelled from the spec: the relational store (an external collaborator
whose migrations are not under src/) "provides durability and
uniqueness/foreign-key constraints", so an insert into an association table
succeeds exactly when the referenced ingredient id exists in `ingredients`;
the store enforces no organization equality between referrer and referent. -/
def fkOk (ingredients : List IngredientRow) (iid : Int) : Bool :=
  ingredients.any (fun i => i.id == iid)

/-- The `RecipeInput` payload (src/src/main.rs lines 94-102). -/
structure RecipeInput where
  lotcode : String
  name : String
  date_made : String
  org_id : Int
  ingredients : List Int
  description : String
deriving Repr, DecidableEq

/-- The `Recipe` entity (src/src/main.rs lines 104-113). -/
structure Recipe where
  id : Option Int
  lotcode : String
  name : String
  date_made : String
  org_id : Int
  ingredients : List Int
  description : Option String
deriving Repr, DecidableEq

/-- A row of the `recipes` table. -/
structure RecipeRow where
  id : Int
  lotcode : String
  name : String
  date_made : Date
  org_id : Int
  description : Option String
deriving Repr, DecidableEq

/-- A row of the `recipe_ingredients` association table. -/
structure RIRow where
  recipe_id : Int
  ingredient_id : Int
deriving Repr, DecidableEq

/-- The outcome of a recipe write: response, both affected tables, and the
transaction events performed. -/
structure RecipeWriteResult where
  resp : ApiResponse Recipe
  recipes : List RecipeRow
  recipe_ingredients : List RIRow
  events : List TxEvent
deriving Repr, DecidableEq

/-- The association-insert loop shared by `create_recipe` and
`update_recipe` (src/src/main.rs lines 612-626 and 768-782): insert one
`recipe_ingredients` row per referenced id in order, stopping at the first
foreign-key failure. -/
def insertRecipeIngredients (rid : Int) (ingredients : List IngredientRow) :
    List Int → Option (List RIRow)
  | [] => some []
  | iid :: rest =>
    if fkOk ingredients iid then
      match insertRecipeIngredients rid ingredients rest with
      | some rows => some (⟨rid, iid⟩ :: rows)
      | none => none
    else none

/-- `create_recipe` (src/src/main.rs lines 569-646): parse the date (400 on
failure, before any transaction), then in one transaction insert the recipe
row (with the fresh sequence value `newId`) and one association row per
referenced ingredient; any association failure rolls the whole transaction
back with a 500, success commits and answers 201 with the materialized
recipe. -/
def create_recipe (input : RecipeInput) (newId : Int)
    (ingredients : List IngredientRow) (recipes : List RecipeRow)
    (recipe_ingredients : List RIRow) : RecipeWriteResult :=
  match parseDate input.date_made with
  | none =>
    ⟨.failure 400 "Invalid date format. Use YYYY-MM-DD",
     recipes, recipe_ingredients, []⟩
  | some d =>
    match insertRecipeIngredients newId ingredients input.ingredients with
    | some rows =>
      ⟨.success 201 ⟨some newId, input.lotcode, input.name, input.date_made,
          input.org_id, input.ingredients, some input.description⟩,
       recipes ++ [⟨newId, input.lotcode, input.name, d, input.org_id,
          some input.description⟩],
       recipe_ingredients ++ rows,
       [.txBegin, .txCommit]⟩
    | none =>
      ⟨.failure 500 "Failed to create recipe",
       recipes, recipe_ingredients, [.txBegin, .txRollback]⟩

/-- `get_recipe` (src/src/main.rs lines 648-682): select the recipe row by
`id` alone — no caller identity, no organization filter — hydrating the
ingredient id array from `recipe_ingredients`. -/
def get_recipe (id : Int) (recipes : List RecipeRow)
    (recipe_ingredients : List RIRow) : ApiResponse Recipe :=
  match recipes.find? (fun r => r.id == id) with
  | some record =>
    .success 200 ⟨some record.id, record.lotcode, record.name,
      renderDate record.date_made, record.org_id,
      (recipe_ingredients.filter (fun ri => ri.recipe_id == id)).map
        (fun ri => ri.ingredient_id),
      record.description⟩
  | none => .failure 404 "Recipe not found"

/-- `update_recipe` (src/src/main.rs lines 716-812): parse the date (400
before any transaction), then in one transaction update the recipe row by
`id`, delete every existing `recipe_ingredients` row of that recipe and
insert one row per id in the input; a missing recipe rolls back with 404,
an association failure rolls back with 500, success commits with 200. -/
def update_recipe (id : Int) (input : RecipeInput)
    (ingredients : List IngredientRow) (recipes : List RecipeRow)
    (recipe_ingredients : List RIRow) : RecipeWriteResult :=
  match parseDate input.date_made with
  | none =>
    ⟨.failure 400 "Invalid date format. Use YYYY-MM-DD",
     recipes, recipe_ingredients, []⟩
  | some d =>
    if recipes.any (fun r => r.id == id) then
      match insertRecipeIngredients id ingredients input.ingredients with
      | some rows =>
        ⟨.success 200 ⟨some id, input.lotcode, input.name, input.date_made,
            input.org_id, input.ingredients, some input.description⟩,
         recipes.map (fun r =>
           if r.id == id then
             ⟨id, input.lotcode, input.name, d, input.org_id,
              some input.description⟩
           else r),
         recipe_ingredients.filter (fun ri => !(ri.recipe_id == id)) ++ rows,
         [.txBegin, .txCommit]⟩
      | none =>
        ⟨.failure 500 "Failed to update recipe",
         recipes, recipe_ingredients, [.txBegin, .txRollback]⟩
    else
      ⟨.failure 404 "Recipe not found",
       recipes, recipe_ingredients, [.txBegin, .txRollback]⟩

/-! ## main.rs : batches -/

/-- The `BatchInput` payload (src/src/main.rs lines 59-70). -/
structure BatchInput where
  org_id : Int
  employee : String
  recipe_lotcode : String
  batch_lot_code : String
  ingredients : List Int
  amount_ingredients : List Int
  date_made : String
  amount_made : String
deriving Repr, DecidableEq

/-- The `Batch` entity (src/src/main.rs lines 72-84). -/
structure Batch where
  id : Option Int
  org_id : Int
  employee : String
  recipe_lotcode : String
  batch_lot_code : String
  ingredients : List Int
  amount_ingredients : List Int
  date_made : String
  amount_made : String
deriving Repr, DecidableEq

/-- A row of the `batches` table. -/
structure BatchRow where
  id : Int
  org_id : Int
  employee : String
  recipe_lotcode : String
  batch_lot_code : String
  date_made : Date
  amount_made : String
deriving Repr, DecidableEq

/-- A row of the `batch_ingredients` association table. -/
structure BIRow where
  batch_id : Int
  ingredient_id : Int
  amount : Int
deriving Repr, DecidableEq

/-- The outcome of a batch write. -/
structure BatchWriteResult where
  resp : ApiResponse Batch
  batches : List BatchRow
  batch_ingredients : List BIRow
  events : List TxEvent
deriving Repr, DecidableEq

/-- The association-insert loop shared by `create_batch` and `update_batch`
(src/src/main.rs lines 917-932 and 1141-1156): one `batch_ingredients` row
per positional (ingredient id, amount) pair, stopping at the first
foreign-key failure. -/
def insertBatchIngredients (bid : Int) (ingredients : List IngredientRow) :
    List (Int × Int) → Option (List BIRow)
  | [] => some []
  | (iid, amt) :: rest =>
    if fkOk ingredients iid then
      match insertBatchIngredients bid ingredients rest with
      | some rows => some (⟨bid, iid, amt⟩ :: rows)
      | none => none
    else none

/-- `create_batch` (src/src/main.rs lines 865-954): parse the date (400),
then check that `ingredients` and `amount_ingredients` have equal length
(400) — both before any transaction — then in one transaction insert the
batch row and the association rows; an association failure rolls back with
500, success commits with 201. -/
def create_batch (input : BatchInput) (newId : Int)
    (ingredients : List IngredientRow) (batches : List BatchRow)
    (batch_ingredients : List BIRow) : BatchWriteResult :=
  match parseDate input.date_made with
  | none =>
    ⟨.failure 400 "Invalid date format. Use YYYY-MM-DD",
     batches, batch_ingredients, []⟩
  | some d =>
    if input.ingredients.length ≠ input.amount_ingredients.length then
      ⟨.failure 400 "Ingredients and amounts must have the same length",
       batches, batch_ingredients, []⟩
    else
      match insertBatchIngredients newId ingredients
          (input.ingredients.zip input.amount_ingredients) with
      | some rows =>
        ⟨.success 201 ⟨some newId, input.org_id, input.employee,
            input.recipe_lotcode, input.batch_lot_code, input.ingredients,
            input.amount_ingredients, input.date_made, input.amount_made⟩,
         batches ++ [⟨newId, input.org_id, input.employee,
            input.recipe_lotcode, input.batch_lot_code, d, input.amount_made⟩],
         batch_ingredients ++ rows,
         [.txBegin, .txCommit]⟩
      | none =>
        ⟨.failure 500 "Failed to create batch",
         batches, batch_ingredients, [.txBegin, .txRollback]⟩

/-- `update_batch` (src/src/main.rs lines 1081-1188): parse the date (400),
check equal array lengths (400) — both before any transaction — then in one
transaction update the batch row by `id`, delete every existing
`batch_ingredients` row of that batch and insert one row per positional
pair; a missing batch rolls back with 404, an association failure rolls
back with 500, success commits with 200. -/
def update_batch (id : Int) (input : BatchInput)
    (ingredients : List IngredientRow) (batches : List BatchRow)
    (batch_ingredients : List BIRow) : BatchWriteResult :=
  match parseDate input.date_made with
  | none =>
    ⟨.failure 400 "Invalid date format. Use YYYY-MM-DD",
     batches, batch_ingredients, []⟩
  | some d =>
    if input.ingredients.length ≠ input.amount_ingredients.length then
      ⟨.failure 400 "Ingredients and amounts must have the same length",
       batches, batch_ingredients, []⟩
    else if batches.any (fun b => b.id == id) then
      match insertBatchIngredients id ingredients
          (input.ingredients.zip input.amount_ingredients) with
      | some rows =>
        ⟨.success 200 ⟨some id, input.org_id, input.employee,
            input.recipe_lotcode, input.batch_lot_code, input.ingredients,
            input.amount_ingredients, input.date_made, input.amount_made⟩,
         batches.map (fun b =>
           if b.id == id then
             ⟨id, input.org_id, input.employee, input.recipe_lotcode,
              input.batch_lot_code, d, input.amount_made⟩
           else b),
         batch_ingredients.filter (fun bi => !(bi.batch_id == id)) ++ rows,
         [.txBegin, .txCommit]⟩
      | none =>
        ⟨.failure 500 "Failed to update batch",
         batches, batch_ingredients, [.txBegin, .txRollback]⟩
    else
      ⟨.failure 404 "Batch not found",
       batches, batch_ingredients, [.txBegin, .txRollback]⟩

/-- Insertion step of sorting batch rows by descending id (`ORDER BY id
DESC` in `get_all_batches`). -/
def insertDescBatch (b : BatchRow) : List BatchRow → List BatchRow
  | [] => [b]
  | c :: cs => if c.id ≤ b.id then b :: c :: cs else c :: insertDescBatch b cs

/-- Sort batch rows by descending id. -/
def sortDescBatch : List BatchRow → List BatchRow
  | [] => []
  | b :: bs => insertDescBatch b (sortDescBatch bs)

/-- Hydration of one batch row: its `batch_ingredients` rows give the
positional ingredient and amount arrays. -/
def hydrateBatch (batch_ingredients : List BIRow) (r : BatchRow) : Batch :=
  ⟨some r.id, r.org_id, r.employee, r.recipe_lotcode, r.batch_lot_code,
   (batch_ingredients.filter (fun bi => bi.batch_id == r.id)).map
     (fun bi => bi.ingredient_id),
   (batch_ingredients.filter (fun bi => bi.batch_id == r.id)).map
     (fun bi => bi.amount),
   renderDate r.date_made, r.amount_made⟩

/-- The hydration loop of `get_all_batches` (src/src/main.rs lines
1038-1076): for each batch row in order, fetch its association rows; when
that per-batch query fails (`biFail r.id`), `continue` — the batch is
skipped and the loop moves on. -/
def hydrateBatchList (biFail : Int → Bool) (records : List BatchRow)
    (batch_ingredients : List BIRow) : List Batch :=
  match records with
  | [] => []
  | r :: rest =>
    if biFail r.id then hydrateBatchList biFail rest batch_ingredients
    else hydrateBatch batch_ingredients r ::
      hydrateBatchList biFail rest batch_ingredients

/-- `get_all_batches` (src/src/main.rs lines 1016-1079): a failure of the
primary `SELECT ... FROM batches ORDER BY id DESC` (`primaryFail`) answers
500; otherwise the surviving hydrated batches are answered with 200, each
batch whose association fetch failed having been skipped. -/
def get_all_batches (primaryFail : Bool) (biFail : Int → Bool)
    (batches : List BatchRow) (batch_ingredients : List BIRow) :
    ApiResponse (List Batch) :=
  if primaryFail then .failure 500 "Internal server error"
  else .success 200 (hydrateBatchList biFail (sortDescBatch batches) batch_ingredients)

/-! ## main.rs : problem logs -/

/-- The `ProblemLogInput` payload (src/src/main.rs lines 39-56).  The source
field `recall` is rendered `recall_flag` here and in the structures below,
because `recall` is a reserved command name in this Lean environment. -/
structure ProblemLogInput where
  is_open : Bool
  date_opened : String
  customer_name : String
  problem_type : String
  assigned_to : List Int
  problem_description : String
  recall_flag : Bool
  date_resolved : Option String
deriving Repr, DecidableEq

/-- The `ProblemLog` entity (src/src/main.rs lines 19-37). -/
structure ProblemLog where
  id : Option Int
  is_open : Bool
  date_opened : String
  customer_name : String
  problem_type : String
  assigned_to : List Int
  problem_description : String
  recall_flag : Bool
  date_resolved : Option String
deriving Repr, DecidableEq

/-- A row of the `problem_logs` table. -/
structure PLRow where
  id : Int
  is_open : Bool
  date_opened : Date
  customer_name : String
  problem_type : String
  problem_description : String
  recall_flag : Bool
  date_resolved : Option Date
deriving Repr, DecidableEq

/-- A row of the `problem_logs_employees` association table. -/
structure PLERow where
  problem_log_id : Int
  employee_id : Int
deriving Repr, DecidableEq

/-- A row of the `employees` table, referenced by `problem_logs_employees`. -/
structure EmployeeRow where
  id : Int
  name : String
  role : String
  org_id : Int
deriving Repr, DecidableEq

/-- Modelled from the spec: like `fkOk`, the store's foreign-key constraint
on `problem_logs_employees.employee_id` (migrations not under src/) makes
an association insert succeed exactly when the employee id exists. -/
def employeeFkOk (employees : List EmployeeRow) (eid : Int) : Bool :=
  employees.any (fun e => e.id == eid)

/-- The outcome of a problem-log write. -/
structure PLWriteResult where
  resp : ApiResponse ProblemLog
  problem_logs : List PLRow
  problem_logs_employees : List PLERow
  events : List TxEvent
deriving Repr, DecidableEq

/-- The association-insert loop of the problem-log writes (src/src/main.rs
lines 1302-1316 and 1522-1536): one `problem_logs_employees` row per
assigned employee id, stopping at the first foreign-key failure. -/
def insertPLEmployees (plid : Int) (employees : List EmployeeRow) :
    List Int → Option (List PLERow)
  | [] => some []
  | eid :: rest =>
    if employeeFkOk employees eid then
      match insertPLEmployees plid employees rest with
      | some rows => some (⟨plid, eid⟩ :: rows)
      | none => none
    else none

/-- `update_problem_log` (src/src/main.rs lines 1453-1568): parse
`date_opened`, then `date_resolved` when present (each 400 before any
transaction), then in one transaction update the row by `id`, delete every
existing `problem_logs_employees` row of that log and insert one per
assigned employee; a missing log rolls back with 404, an association
failure rolls back with 500, success commits with 200. -/
def update_problem_log (id : Int) (input : ProblemLogInput)
    (employees : List EmployeeRow) (problem_logs : List PLRow)
    (problem_logs_employees : List PLERow) : PLWriteResult :=
  match parseDate input.date_opened with
  | none =>
    ⟨.failure 400 "Invalid date_opened format. Use YYYY-MM-DD",
     problem_logs, problem_logs_employees, []⟩
  | some dOpened =>
    match input.date_resolved with
    | some s =>
      match parseDate s with
      | none =>
        ⟨.failure 400 "Invalid date_resolved format. Use YYYY-MM-DD",
         problem_logs, problem_logs_employees, []⟩
      | some dResolved =>
        updatePLBody id input employees problem_logs problem_logs_employees
          dOpened (some dResolved)
    | none =>
      updatePLBody id input employees problem_logs problem_logs_employees
        dOpened none
where
  /-- The transactional part after both dates parsed. -/
  updatePLBody (id : Int) (input : ProblemLogInput)
      (employees : List EmployeeRow) (problem_logs : List PLRow)
      (problem_logs_employees : List PLERow) (dOpened : Date)
      (dResolved : Option Date) : PLWriteResult :=
    if problem_logs.any (fun p => p.id == id) then
      match insertPLEmployees id employees input.assigned_to with
      | some rows =>
        ⟨.success 200 ⟨some id, input.is_open, input.date_opened,
            input.customer_name, input.problem_type, input.assigned_to,
            input.problem_description, input.recall_flag, input.date_resolved⟩,
         problem_logs.map (fun p =>
           if p.id == id then
             ⟨id, input.is_open, dOpened, input.customer_name,
              input.problem_type, input.problem_description, input.recall_flag,
              dResolved⟩
           else p),
         problem_logs_employees.filter (fun pe => !(pe.problem_log_id == id))
           ++ rows,
         [.txBegin, .txCommit]⟩
      | none =>
        ⟨.failure 500 "Failed to update problem log",
         problem_logs, problem_logs_employees, [.txBegin, .txRollback]⟩
    else
      ⟨.failure 404 "Problem log not found",
       problem_logs, problem_logs_employees, [.txBegin, .txRollback]⟩

/-- Insertion step of sorting problem-log rows by descending id (`ORDER BY
id DESC` in `get_all_problem_logs`). -/
def insertDescPL (p : PLRow) : List PLRow → List PLRow
  | [] => [p]
  | c :: cs => if c.id ≤ p.id then p :: c :: cs else c :: insertDescPL p cs

/-- Sort problem-log rows by descending id. -/
def sortDescPL : List PLRow → List PLRow
  | [] => []
  | p :: ps => insertDescPL p (sortDescPL ps)

/-- Hydration of one problem-log row with its assigned employee ids. -/
def hydratePL (problem_logs_employees : List PLERow) (r : PLRow) : ProblemLog :=
  ⟨some r.id, r.is_open, renderDate r.date_opened, r.customer_name,
   r.problem_type,
   (problem_logs_employees.filter (fun pe => pe.problem_log_id == r.id)).map
     (fun pe => pe.employee_id),
   r.problem_description, r.recall_flag, r.date_resolved.map renderDate⟩

/-- The hydration loop of `get_all_problem_logs` (src/src/main.rs lines
1416-1448): when the per-log employee fetch fails (`pleFail r.id`),
`continue` — the log is skipped and the loop moves on. -/
def hydratePLList (pleFail : Int → Bool) (records : List PLRow)
    (problem_logs_employees : List PLERow) : List ProblemLog :=
  match records with
  | [] => []
  | r :: rest =>
    if pleFail r.id then hydratePLList pleFail rest problem_logs_employees
    else hydratePL problem_logs_employees r ::
      hydratePLList pleFail rest problem_logs_employees

/-- `get_all_problem_logs` (src/src/main.rs lines 1394-1451): a failure of
the primary select answers 500; otherwise the surviving hydrated logs are
answered with 200, each log whose employee fetch failed having been
skipped. -/
def get_all_problem_logs (primaryFail : Bool) (pleFail : Int → Bool)
    (problem_logs : List PLRow) (problem_logs_employees : List PLERow) :
    ApiResponse (List ProblemLog) :=
  if primaryFail then .failure 500 "Internal server error"
  else .success 200
    (hydratePLList pleFail (sortDescPL problem_logs) problem_logs_employees)

/-! ## auth.rs : login -/

/-- A row of the `organizations` table as selected by `login_organization`
(id, name, email, password_hash, password_salt). -/
structure OrgCredRow where
  id : Int
  name : String
  email : String
  password_hash : String
  password_salt : String
deriving Repr, DecidableEq

/-- The `AuthResponse` payload (src/src/auth.rs lines 45-49). -/
structure AuthResponse where
  token : String
  organization : Organization
deriving Repr, DecidableEq

/-- `login_organization` (src/src/auth.rs lines 227-312): find the
organization by email; a missing row and a failed password check both
answer 401 with the body `Invalid credentials`; on success a token is
generated (its serialized form is the external JWT encoding, passed as
`tok`), persisted with `expires_at = now + 7 days` and `revoked = false`,
and answered with 200.  Returns the response and the updated
`access_tokens` table. -/
def login_organization (ar : String → String → String) (email password : String)
    (organizations : List OrgCredRow) (tok : String) (now : Int)
    (access_tokens : List TokenRow) :
    ApiResponse AuthResponse × List TokenRow :=
  match organizations.find? (fun r => r.email == email) with
  | some record =>
    if verify_password ar password record.password_hash then
      (.success 200 ⟨tok, ⟨some record.id, record.name, record.email⟩⟩,
       access_tokens ++ [⟨tok, record.id, now + 7 * 86400, false⟩])
    else
      (.failure 401 "Invalid credentials", access_tokens)
  | none => (.failure 401 "Invalid credentials", access_tokens)

/-! ## Helper lemmas -/

lemma splitCharAux_of_not_mem (sep : Char) (xs : List Char) (h : sep ∉ xs) :
    splitCharAux sep xs = (xs, []) := by
  induction xs with
  | nil => rfl
  | cons c cs ih =>
    simp only [List.mem_cons, not_or] at h
    simp [splitCharAux, ih h.2, Ne.symm h.1]

lemma splitCharAux_append (sep : Char) (xs rest : List Char) (h : sep ∉ xs) :
    splitCharAux sep (xs ++ sep :: rest) =
      (xs, (splitCharAux sep rest).1 :: (splitCharAux sep rest).2) := by
  induction xs with
  | nil => simp [splitCharAux]
  | cons c cs ih =>
    simp only [List.mem_cons, not_or] at h
    simp [splitCharAux, ih h.2, Ne.symm h.1]

lemma splitChar_cons_self (sep : Char) (rest : List Char) :
    splitChar sep (sep :: rest) = [] :: splitChar sep rest := by
  simp [splitChar, splitCharAux]

lemma splitChar_append (sep : Char) (xs rest : List Char) (h : sep ∉ xs) :
    splitChar sep (xs ++ sep :: rest) = xs :: splitChar sep rest := by
  simp [splitChar, splitCharAux_append sep xs rest h]

lemma splitChar_of_not_mem (sep : Char) (xs : List Char) (h : sep ∉ xs) :
    splitChar sep xs = [xs] := by
  simp [splitChar, splitCharAux_of_not_mem sep xs h]

lemma hash_password_data (ar : String → String → String) (salt p : String) :
    (hash_password ar salt p).1.data =
      '$' :: ("argon2id".data ++ '$' :: ("v=19".data ++ '$' ::
        ("m=19456,t=2,p=1".data ++ '$' :: (salt.data ++ '$' :: (ar salt p).data)))) := by
  simp [hash_password, argon2Header, String.data_append]

lemma phcParse_hash_password (ar : String → String → String) (salt p : String)
    (hs : '$' ∉ salt.data) (hd : '$' ∉ (ar salt p).data) :
    phcParse (hash_password ar salt p).1 =
      some ⟨"argon2id", "v=19", "m=19456,t=2,p=1", salt, ar salt p⟩ := by
  have hsplit : splitChar '$' (hash_password ar salt p).1.data =
      [[], "argon2id".data, "v=19".data, "m=19456,t=2,p=1".data, salt.data,
       (ar salt p).data] := by
    rw [hash_password_data, splitChar_cons_self,
      splitChar_append _ _ _ (by decide), splitChar_append _ _ _ (by decide),
      splitChar_append _ _ _ (by decide), splitChar_append _ _ _ hs,
      splitChar_of_not_mem _ _ hd]
  simp only [phcParse, hsplit]
  exact rfl

lemma hash_password_head (ar : String → String → String) (salt p : String) :
    (hash_password ar salt p).1.data.head? = some '$' := by
  rw [hash_password_data]
  rfl

/-- The pointwise revocation map of `logout_organization`. -/
lemma revoke_map_idem (token : String) (l : List TokenRow) :
    (l.map (fun r => if r.token == token then { r with is_revoked := true }
        else r)).map (fun r => if r.token == token then { r with is_revoked := true }
        else r) =
      l.map (fun r => if r.token == token then { r with is_revoked := true }
        else r) := by
  induction l with
  | nil => rfl
  | cons a t ih =>
    simp only [List.map_cons, ih]
    by_cases hr : a.token = token <;> simp [hr]

lemma filter_not_key_filter_key {α : Type} (key : α → Int) (k : Int) (l : List α) :
    (l.filter (fun x => !(key x == k))).filter (fun x => key x == k) = [] := by
  induction l with
  | nil => rfl
  | cons a t ih =>
    cases ha : key a == k <;> simp [List.filter_cons, ha, ih]

lemma filter_key_map {α β : Type} (key : β → Int) (k : Int) (f : α → β)
    (l : List α) (hk : ∀ a, key (f a) = k) :
    (l.map f).filter (fun x => key x == k) = l.map f := by
  induction l with
  | nil => rfl
  | cons a t ih => simp [List.filter_cons, hk a, ih]

lemma insertRecipeIngredients_of_all (rid : Int) (tbl : List IngredientRow)
    (iids : List Int) (h : iids.all (fun i => fkOk tbl i) = true) :
    insertRecipeIngredients rid tbl iids =
      some (iids.map (fun i => ⟨rid, i⟩)) := by
  induction iids with
  | nil => rfl
  | cons i rest ih =>
    simp only [List.all_cons, Bool.and_eq_true] at h
    simp [insertRecipeIngredients, h.1, ih h.2]

lemma insertBatchIngredients_of_all (bid : Int) (tbl : List IngredientRow)
    (pairs : List (Int × Int))
    (h : pairs.all (fun p => fkOk tbl p.1) = true) :
    insertBatchIngredients bid tbl pairs =
      some (pairs.map (fun p => ⟨bid, p.1, p.2⟩)) := by
  induction pairs with
  | nil => rfl
  | cons p rest ih =>
    obtain ⟨iid, amt⟩ := p
    simp only [List.all_cons, Bool.and_eq_true] at h
    simp [insertBatchIngredients, h.1, ih h.2]

lemma insertPLEmployees_of_all (plid : Int) (emps : List EmployeeRow)
    (eids : List Int) (h : eids.all (fun e => employeeFkOk emps e) = true) :
    insertPLEmployees plid emps eids =
      some (eids.map (fun e => ⟨plid, e⟩)) := by
  induction eids with
  | nil => rfl
  | cons e rest ih =>
    simp only [List.all_cons, Bool.and_eq_true] at h
    simp [insertPLEmployees, h.1, ih h.2]

lemma zip_all_fst (l1 l2 : List Int) (f : Int → Bool) (h : l1.all f = true) :
    (l1.zip l2).all (fun p => f p.1) = true := by
  induction l1 generalizing l2 with
  | nil => rfl
  | cons a t ih =>
    cases l2 with
    | nil => rfl
    | cons b u =>
      simp only [List.all_cons, Bool.and_eq_true] at h
      simp only [List.zip_cons_cons, List.all_cons, Bool.and_eq_true]
      exact ⟨h.1, ih u h.2⟩

lemma find?_update_map (recipes : List RecipeRow) (rid : Int)
    (newRow : RecipeRow) (hnew : newRow.id = rid)
    (h : recipes.any (fun r => r.id == rid) = true) :
    (recipes.map (fun r => if r.id == rid then newRow else r)).find?
      (fun r => r.id == rid) = some newRow := by
  induction recipes with
  | nil => simp at h
  | cons a t ih =>
    by_cases ha : a.id = rid
    · have hb : (a.id == rid) = true := by simp [ha]
      simp only [List.map_cons, hb, if_true, List.find?_cons]
      simp [hnew]
    · have hb : (a.id == rid) = false := by simp [ha]
      have h2 : t.any (fun r => r.id == rid) = true := by
        simp only [List.any_cons, hb, Bool.false_or] at h
        exact h
      simp only [List.map_cons, hb, Bool.false_eq_true, if_false, List.find?_cons]
      exact ih h2

lemma hydrateBatchList_eq (f : Int → Bool) (rs : List BatchRow)
    (bis : List BIRow) :
    hydrateBatchList f rs bis =
      (rs.filter (fun r => !(f r.id))).map (hydrateBatch bis) := by
  induction rs with
  | nil => rfl
  | cons r rest ih =>
    cases hf : f r.id <;> simp [hydrateBatchList, List.filter_cons, hf, ih]

lemma hydratePLList_eq (g : Int → Bool) (rs : List PLRow)
    (ples : List PLERow) :
    hydratePLList g rs ples =
      (rs.filter (fun r => !(g r.id))).map (hydratePL ples) := by
  induction rs with
  | nil => rfl
  | cons r rest ih =>
    cases hg : g r.id <;> simp [hydratePLList, List.filter_cons, hg, ih]

/-- The ingredient id list carried by a recipe response (empty on failure). -/
def recipeRespIngredientList : ApiResponse Recipe → List Int
  | .success _ r => r.ingredients
  | .failure _ _ => []

/-! ## Claim theorems -/

/-- C1 (code-bug evidence): with organizations 1 ("Org A") and 2 ("Org B")
in the store, `GET /api/orgs/2` answers 200 with organization 2's data —
the handler takes no caller identity, applies no organization filter, and
`verify_auth` is wired into no route — and `GET /api/recipes/5` likewise
hands a recipe owned by organization 2 to any caller, contradicting the
claim that a request authenticated for A is always answered 403/404 and
never leaks B's data. -/
theorem tenant_isolation_violated :
    get_organization 2
        [⟨1, "Org A", "a@example.com"⟩, ⟨2, "Org B", "b@example.com"⟩]
      = .success 200 ⟨some 2, "Org B", "b@example.com"⟩
    ∧ get_recipe 5
        [⟨5, "LOT-R", "Salsa", ⟨2024, 1, 1⟩, 2, some "house salsa"⟩] [⟨5, 7⟩]
      = .success 200
          ⟨some 5, "LOT-R", "Salsa", "2024-01-01", 2, [7], some "house salsa"⟩ :=
  ⟨rfl, rfl⟩

/-- C2 counterexample: a persisted token with `expires_at = 100` checked at
`now = 100` satisfies the claim's `now >= expires_at` condition, yet
`verify_auth` accepts it and returns the organization id instead of failing
`Unauthorized("expired")` — the source rejects only when
`expires_at < now`. -/
theorem verify_auth_accepts_at_expiry_instant :
    (100 : Int) ≥ 100
    ∧ verify_auth (some "Bearer tok") [⟨"tok", 1, 100, false⟩] 100 = .ok 1 :=
  ⟨le_refl 100, rfl⟩

/-- C2 (amended): `verify_auth` coincides on every input with the tenant
resolver algorithm of the claim amended at the expiry boundary — a missing
or malformed `Authorization` header, a missing row, a revoked row and a row
with `now > expires_at` (strictly, rather than the claim's
`now >= expires_at`) fail `Unauthorized` in that order, and every remaining
case returns the row's `org_id`. -/
theorem verify_auth_eq_spec (hdr : Option String) (toks : List TokenRow)
    (now : Int) :
    verify_auth hdr toks now = tenantResolverSpec hdr toks now := by
  cases hdr with
  | none => rfl
  | some h =>
    cases hb : bearerSplit h with
    | none =>
      simp [verify_auth, tenantResolverSpec, get_token_from_request, hb]
    | some token =>
      cases hf : toks.find? (fun r => r.token == token) with
      | none =>
        simp [verify_auth, tenantResolverSpec, get_token_from_request, hb, hf]
      | some r =>
        by_cases hrv : r.is_revoked <;>
          simp [verify_auth, tenantResolverSpec, get_token_from_request, hb,
            hf, hrv, gt_iff_lt]

/-- C3 (code-bug evidence): with an ingredients table holding only
ingredient 7 owned by organization 2: (a) creating a recipe for
organization 1 that references the cross-tenant ingredient 7 succeeds with
201 and persists both the recipe row and the association row, instead of
failing with a client error and persisting nothing — no handler compares
the referenced ingredient's organization to the caller's; (b) referencing
the missing ingredient 9 aborts with a 500 server error, not a 4xx client
error (the rollback does leave the store unchanged); (c) a batch create
referencing the cross-tenant ingredient 7 likewise succeeds and persists
its rows. -/
theorem cross_tenant_ingredient_accepted :
    create_recipe ⟨"LOT-R", "Salsa", "2024-01-01", 1, [7], "cross"⟩ 10
        [⟨7, "LOT-I", "Flour", ⟨2024, 1, 1⟩, 2⟩] [] []
      = ⟨.success 201 ⟨some 10, "LOT-R", "Salsa", "2024-01-01", 1, [7], some "cross"⟩,
         [⟨10, "LOT-R", "Salsa", ⟨2024, 1, 1⟩, 1, some "cross"⟩],
         [⟨10, 7⟩], [.txBegin, .txCommit]⟩
    ∧ create_recipe ⟨"LOT-R", "Salsa", "2024-01-01", 1, [9], "missing"⟩ 11
        [⟨7, "LOT-I", "Flour", ⟨2024, 1, 1⟩, 2⟩] [] []
      = ⟨.failure 500 "Failed to create recipe", [], [], [.txBegin, .txRollback]⟩
    ∧ create_batch ⟨1, "Alice", "LOT-R", "B-1", [7], [3], "2024-01-01", "5"⟩ 20
        [⟨7, "LOT-I", "Flour", ⟨2024, 1, 1⟩, 2⟩] [] []
      = ⟨.success 201 ⟨some 20, 1, "Alice", "LOT-R", "B-1", [7], [3], "2024-01-01", "5"⟩,
         [⟨20, 1, "Alice", "LOT-R", "B-1", ⟨2024, 1, 1⟩, "5"⟩],
         [⟨20, 7, 3⟩], [.txBegin, .txCommit]⟩ :=
  ⟨rfl, rfl, rfl⟩

/-- C4: a batch create or update whose `ingredients` and
`amount_ingredients` arrays have different lengths answers a 400 client
error, opens no transaction (its event list is empty) and leaves both the
`batches` and `batch_ingredients` tables unchanged. -/
theorem batch_length_mismatch_rejected (input : BatchInput) (newId bid : Int)
    (tbl : List IngredientRow) (batches : List BatchRow) (bis : List BIRow)
    (h : input.ingredients.length ≠ input.amount_ingredients.length) :
    ((create_batch input newId tbl batches bis).resp.status = 400
      ∧ (create_batch input newId tbl batches bis).batches = batches
      ∧ (create_batch input newId tbl batches bis).batch_ingredients = bis
      ∧ (create_batch input newId tbl batches bis).events = [])
    ∧ ((update_batch bid input tbl batches bis).resp.status = 400
      ∧ (update_batch bid input tbl batches bis).batches = batches
      ∧ (update_batch bid input tbl batches bis).batch_ingredients = bis
      ∧ (update_batch bid input tbl batches bis).events = []) := by
  unfold create_batch update_batch
  cases hd : parseDate input.date_made <;>
    simp [hd, h, ApiResponse.status]

/-- Witness for C4 at a concrete mismatched input (one ingredient id, no
amounts). -/
theorem batch_length_mismatch_rejected_witness :
    (create_batch ⟨1, "Alice", "LOT-R", "B-1", [1], [], "2024-01-01", "5"⟩ 20
        [] [] []).resp.status = 400
    ∧ (update_batch 3 ⟨1, "Alice", "LOT-R", "B-1", [1], [], "2024-01-01", "5"⟩
        [] [] []).events = [] :=
  ⟨(batch_length_mismatch_rejected
      ⟨1, "Alice", "LOT-R", "B-1", [1], [], "2024-01-01", "5"⟩ 20 3 [] [] []
      (by decide)).1.1,
   (batch_length_mismatch_rejected
      ⟨1, "Alice", "LOT-R", "B-1", [1], [], "2024-01-01", "5"⟩ 20 3 [] [] []
      (by decide)).2.2.2.2⟩

lemma map_riProj (rid : Int) (l : List Int) :
    (l.map (fun i => (⟨rid, i⟩ : RIRow))).map (fun ri => ri.ingredient_id) = l := by
  induction l with
  | nil => rfl
  | cons a t ih => simp only [List.map_cons, ih]

lemma map_biProj (bid : Int) (l : List (Int × Int)) :
    (l.map (fun p => (⟨bid, p.1, p.2⟩ : BIRow))).map
      (fun bi => (bi.ingredient_id, bi.amount)) = l := by
  induction l with
  | nil => rfl
  | cons a t ih => simp only [List.map_cons, ih, Prod.mk.eta]

lemma map_pleProj (pid : Int) (l : List Int) :
    (l.map (fun e => (⟨pid, e⟩ : PLERow))).map (fun pe => pe.employee_id) = l := by
  induction l with
  | nil => rfl
  | cons a t ih => simp only [List.map_cons, ih]

/-- C5: a successful composite update replaces the entire association set —
after `update_recipe`, `update_batch` or `update_problem_log` succeeds (date
parsed, entity found, every reference satisfying the store's foreign keys),
the association rows of the updated entity are exactly those given in the
input, in order, the write ran in one committed transaction, and a
subsequent `get_recipe` returns exactly the new ingredient list. -/
theorem update_replaces_associations
    (rid : Int) (rinp : RecipeInput) (tbl : List IngredientRow)
    (recipes : List RecipeRow) (ris : List RIRow)
    (bid : Int) (binp : BatchInput) (batches : List BatchRow) (bis : List BIRow)
    (pid : Int) (pinp : ProblemLogInput) (emps : List EmployeeRow)
    (pls : List PLRow) (ples : List PLERow)
    (hr1 : (parseDate rinp.date_made).isSome = true)
    (hr2 : recipes.any (fun r => r.id == rid) = true)
    (hr3 : rinp.ingredients.all (fun i => fkOk tbl i) = true)
    (hb1 : (parseDate binp.date_made).isSome = true)
    (hb2 : binp.ingredients.length = binp.amount_ingredients.length)
    (hb3 : batches.any (fun b => b.id == bid) = true)
    (hb4 : binp.ingredients.all (fun i => fkOk tbl i) = true)
    (hp1 : (parseDate pinp.date_opened).isSome = true)
    (hp2 : ∀ s, pinp.date_resolved = some s → (parseDate s).isSome = true)
    (hp3 : pls.any (fun p => p.id == pid) = true)
    (hp4 : pinp.assigned_to.all (fun e => employeeFkOk emps e) = true) :
    (((update_recipe rid rinp tbl recipes ris).recipe_ingredients.filter
        (fun ri => ri.recipe_id == rid)).map (fun ri => ri.ingredient_id)
        = rinp.ingredients
      ∧ (update_recipe rid rinp tbl recipes ris).events = [.txBegin, .txCommit]
      ∧ recipeRespIngredientList
          (get_recipe rid (update_recipe rid rinp tbl recipes ris).recipes
            (update_recipe rid rinp tbl recipes ris).recipe_ingredients)
        = rinp.ingredients)
    ∧ (((update_batch bid binp tbl batches bis).batch_ingredients.filter
        (fun bi => bi.batch_id == bid)).map
          (fun bi => (bi.ingredient_id, bi.amount))
        = binp.ingredients.zip binp.amount_ingredients
      ∧ (update_batch bid binp tbl batches bis).events = [.txBegin, .txCommit])
    ∧ (((update_problem_log pid pinp emps pls ples).problem_logs_employees.filter
        (fun pe => pe.problem_log_id == pid)).map (fun pe => pe.employee_id)
        = pinp.assigned_to
      ∧ (update_problem_log pid pinp emps pls ples).events
        = [.txBegin, .txCommit]) := by
  obtain ⟨dr, hdr⟩ := Option.isSome_iff_exists.mp hr1
  obtain ⟨db, hdb⟩ := Option.isSome_iff_exists.mp hb1
  obtain ⟨dp, hdp⟩ := Option.isSome_iff_exists.mp hp1
  have hinsR := insertRecipeIngredients_of_all rid tbl rinp.ingredients hr3
  have hinsB := insertBatchIngredients_of_all bid tbl
    (binp.ingredients.zip binp.amount_ingredients)
    (zip_all_fst binp.ingredients binp.amount_ingredients _ hb4)
  have hinsP := insertPLEmployees_of_all pid emps pinp.assigned_to hp4
  refine ⟨⟨?_, ?_, ?_⟩, ⟨?_, ?_⟩, ?_⟩
  · simp only [update_recipe, hdr, hr2, if_true, hinsR]
    rw [List.filter_append,
      filter_not_key_filter_key (fun x : RIRow => x.recipe_id) rid,
      filter_key_map (fun x : RIRow => x.recipe_id) rid _ _ (fun a => rfl),
      List.nil_append]
    exact map_riProj rid rinp.ingredients
  · simp [update_recipe, hdr, hr2, hinsR]
  · simp only [update_recipe, hdr, hr2, if_true, hinsR]
    simp only [get_recipe,
      find?_update_map recipes rid
        ⟨rid, rinp.lotcode, rinp.name, dr, rinp.org_id, some rinp.description⟩
        rfl hr2]
    simp only [recipeRespIngredientList]
    rw [List.filter_append,
      filter_not_key_filter_key (fun x : RIRow => x.recipe_id) rid,
      filter_key_map (fun x : RIRow => x.recipe_id) rid _ _ (fun a => rfl),
      List.nil_append]
    exact map_riProj rid rinp.ingredients
  · simp only [update_batch, hdb, hb2, ne_eq, not_true_eq_false, if_false,
      hb3, if_true, hinsB]
    rw [List.filter_append,
      filter_not_key_filter_key (fun x : BIRow => x.batch_id) bid,
      filter_key_map (fun x : BIRow => x.batch_id) bid _ _ (fun a => rfl),
      List.nil_append]
    exact map_biProj bid (binp.ingredients.zip binp.amount_ingredients)
  · simp [update_batch, hdb, hb2, hb3, hinsB]
  · cases hres : pinp.date_resolved with
    | none =>
      constructor
      · simp only [update_problem_log, hdp, hres,
          update_problem_log.updatePLBody, hp3, if_true, hinsP]
        rw [List.filter_append,
          filter_not_key_filter_key (fun x : PLERow => x.problem_log_id) pid,
          filter_key_map (fun x : PLERow => x.problem_log_id) pid _ _
            (fun a => rfl),
          List.nil_append]
        exact map_pleProj pid pinp.assigned_to
      · simp [update_problem_log, hdp, hres,
          update_problem_log.updatePLBody, hp3, hinsP]
    | some s =>
      obtain ⟨ds, hds⟩ := Option.isSome_iff_exists.mp (hp2 s hres)
      constructor
      · simp only [update_problem_log, hdp, hres, hds,
          update_problem_log.updatePLBody, hp3, if_true, hinsP]
        rw [List.filter_append,
          filter_not_key_filter_key (fun x : PLERow => x.problem_log_id) pid,
          filter_key_map (fun x : PLERow => x.problem_log_id) pid _ _
            (fun a => rfl),
          List.nil_append]
        exact map_pleProj pid pinp.assigned_to
      · simp [update_problem_log, hdp, hres, hds,
          update_problem_log.updatePLBody, hp3, hinsP]

/-- Witness for C5 at the spec's own example: a recipe with stored
associations [1, 2] updated to [3] afterwards stores and returns exactly
[3]. -/
theorem update_replaces_associations_witness :
    ((update_recipe 1 ⟨"L", "N", "2024-01-01", 1, [3], "d"⟩
        [⟨3, "LOT-3", "Sugar", ⟨2024, 1, 1⟩, 1⟩]
        [⟨1, "L0", "N0", ⟨2024, 1, 1⟩, 1, some "x"⟩]
        [⟨1, 1⟩, ⟨1, 2⟩]).recipe_ingredients.filter
      (fun ri => ri.recipe_id == 1)).map (fun ri => ri.ingredient_id) = [3]
    ∧ recipeRespIngredientList
        (get_recipe 1
          (update_recipe 1 ⟨"L", "N", "2024-01-01", 1, [3], "d"⟩
            [⟨3, "LOT-3", "Sugar", ⟨2024, 1, 1⟩, 1⟩]
            [⟨1, "L0", "N0", ⟨2024, 1, 1⟩, 1, some "x"⟩]
            [⟨1, 1⟩, ⟨1, 2⟩]).recipes
          (update_recipe 1 ⟨"L", "N", "2024-01-01", 1, [3], "d"⟩
            [⟨3, "LOT-3", "Sugar", ⟨2024, 1, 1⟩, 1⟩]
            [⟨1, "L0", "N0", ⟨2024, 1, 1⟩, 1, some "x"⟩]
            [⟨1, 1⟩, ⟨1, 2⟩]).recipe_ingredients) = [3] :=
  ⟨(update_replaces_associations 1 ⟨"L", "N", "2024-01-01", 1, [3], "d"⟩
      [⟨3, "LOT-3", "Sugar", ⟨2024, 1, 1⟩, 1⟩]
      [⟨1, "L0", "N0", ⟨2024, 1, 1⟩, 1, some "x"⟩] [⟨1, 1⟩, ⟨1, 2⟩]
      2 ⟨1, "E", "RL", "BL", [3], [5], "2024-01-01", "7"⟩
      [⟨2, 1, "E", "RL", "BL", ⟨2024, 1, 1⟩, "7"⟩] [⟨2, 1, 4⟩]
      4 ⟨true, "2024-01-01", "C", "T", [3], "D", false, none⟩
      [⟨3, "Eve", "QA", 1⟩] [⟨4, true, ⟨2024, 1, 1⟩, "C", "T", "D", false, none⟩]
      [⟨4, 9⟩] (by decide) (by decide) (by decide) (by decide) (by decide)
      (by decide) (by decide) (by decide) (fun s h => nomatch h) (by decide)
      (by decide)).1.1,
   (update_replaces_associations 1 ⟨"L", "N", "2024-01-01", 1, [3], "d"⟩
      [⟨3, "LOT-3", "Sugar", ⟨2024, 1, 1⟩, 1⟩]
      [⟨1, "L0", "N0", ⟨2024, 1, 1⟩, 1, some "x"⟩] [⟨1, 1⟩, ⟨1, 2⟩]
      2 ⟨1, "E", "RL", "BL", [3], [5], "2024-01-01", "7"⟩
      [⟨2, 1, "E", "RL", "BL", ⟨2024, 1, 1⟩, "7"⟩] [⟨2, 1, 4⟩]
      4 ⟨true, "2024-01-01", "C", "T", [3], "D", false, none⟩
      [⟨3, "Eve", "QA", 1⟩] [⟨4, true, ⟨2024, 1, 1⟩, "C", "T", "D", false, none⟩]
      [⟨4, 9⟩] (by decide) (by decide) (by decide) (by decide) (by decide)
      (by decide) (by decide) (by decide) (fun s h => nomatch h) (by decide)
      (by decide)).1.2.2⟩

/-- C6 counterexample: with batches 1 and 2 in the store and the per-batch
ingredient fetch failing for batch 1, `get_all_batches` answers 200 with
batch 1 silently omitted — the storage failure is not surfaced as a 5xx. -/
theorem list_omits_failed_entity :
    get_all_batches false (fun i => i == 1)
        [⟨1, 1, "Alice", "LOT-R", "B-1", ⟨2024, 1, 1⟩, "5"⟩,
         ⟨2, 1, "Bob", "LOT-R", "B-2", ⟨2024, 1, 2⟩, "6"⟩] []
      = .success 200 [⟨some 2, 1, "Bob", "LOT-R", "B-2", [], [], "2024-01-02", "6"⟩] :=
  rfl

/-- C6 (amended): storage failures surface immediately as 5xx with no retry
except in the two hydrating list endpoints — a failing primary list query
answers 500, while a failure of one entity's association fetch in
`get_all_batches` or `get_all_problem_logs` silently skips that entity and
answers 200 with exactly the entities whose association fetch succeeded. -/
theorem storage_failure_surfacing (f g : Int → Bool)
    (batches : List BatchRow) (bis : List BIRow)
    (pls : List PLRow) (ples : List PLERow) :
    get_all_batches true f batches bis = .failure 500 "Internal server error"
    ∧ get_all_batches false f batches bis
      = .success 200 (((sortDescBatch batches).filter (fun b => !(f b.id))).map
          (hydrateBatch bis))
    ∧ get_all_problem_logs true g pls ples
      = .failure 500 "Internal server error"
    ∧ get_all_problem_logs false g pls ples
      = .success 200 (((sortDescPL pls).filter (fun p => !(g p.id))).map
          (hydratePL ples)) := by
  refine ⟨rfl, ?_, rfl, ?_⟩
  · simp [get_all_batches, hydrateBatchList_eq]
  · simp [get_all_problem_logs, hydratePLList_eq]

/-- C7 counterexample: the source reads `Utc::now()` twice; with the first
read at t = 0 and the second at t = 1 the issued claims have
exp = 604800 but iat + 7 days = 604801, so `exp = iat + 7 days exactly`
fails. -/
theorem generate_token_clock_skew :
    (generate_token 1 0 1 "jti-a").exp
      ≠ (generate_token 1 0 1 "jti-a").iat + 7 * 86400 := by decide

/-- C7 (amended): the claims issued by `generate_token` have subject the
organization id, expiry the first clock read plus exactly 7 days — hence
`exp = iat + 7 days` exactly whenever the two `Utc::now()` reads coincide —
and the token identifier is the freshly generated uuid, distinct across
issuances with distinct uuids. -/
theorem generate_token_claims_shape (org o2 t1 t2 s1 s2 : Int) (u u2 : String)
    (hclock : t2 = t1) (hu : u ≠ u2) :
    (generate_token org t1 t2 u).sub = toString org
    ∧ (generate_token org t1 t2 u).exp = t1 + 7 * 86400
    ∧ (generate_token org t1 t2 u).exp
      = (generate_token org t1 t2 u).iat + 7 * 86400
    ∧ (generate_token org t1 t2 u).jti ≠ (generate_token o2 s1 s2 u2).jti := by
  subst hclock
  exact ⟨rfl, rfl, rfl, hu⟩

/-- Witness for C7 at coinciding clock reads t = 1000 and distinct uuids. -/
theorem generate_token_claims_shape_witness :
    (generate_token 42 1000 1000 "uuid-1").sub = toString (42 : Int)
    ∧ (generate_token 42 1000 1000 "uuid-1").exp
      = (generate_token 42 1000 1000 "uuid-1").iat + 7 * 86400
    ∧ (generate_token 42 1000 1000 "uuid-1").jti
      ≠ (generate_token 7 2000 2000 "uuid-2").jti :=
  ⟨(generate_token_claims_shape 42 7 1000 1000 2000 2000 "uuid-1" "uuid-2"
      rfl (by decide)).1,
   (generate_token_claims_shape 42 7 1000 1000 2000 2000 "uuid-1" "uuid-2"
      rfl (by decide)).2.2.1,
   (generate_token_claims_shape 42 7 1000 1000 2000 2000 "uuid-1" "uuid-2"
      rfl (by decide)).2.2.2⟩

/-- C8: logout is idempotent — revoking is a second time (or revoking an
unknown token) changes nothing and still answers 200; the state after two
calls equals the state after one, the responses of the two calls coincide,
any request carrying a bearer token is answered
200 `Logged out successfully`, and a request with no bearer token is
answered 400. -/
theorem logout_idempotent (hdr : Option String) (toks : List TokenRow) :
    (logout_organization hdr (logout_organization hdr toks).2).2
      = (logout_organization hdr toks).2
    ∧ (logout_organization hdr (logout_organization hdr toks).2).1
      = (logout_organization hdr toks).1
    ∧ ((get_token_from_request hdr).isSome = true →
        (logout_organization hdr toks).1
          = .success 200 "Logged out successfully")
    ∧ ((get_token_from_request hdr).isSome = false →
        (logout_organization hdr toks).1
          = .failure 400 "No authentication token provided") := by
  cases hg : get_token_from_request hdr with
  | none => simp [logout_organization, hg]
  | some t =>
    refine ⟨?_, ?_, ?_, ?_⟩
    · simp only [logout_organization, hg]
      exact revoke_map_idem t toks
    · simp [logout_organization, hg]
    · intro _
      simp [logout_organization, hg]
    · intro hc
      simp at hc

/-- Witness for C8: one call on a present token answers 200, a call with no
bearer token answers 400, and a second call leaves the state of the first. -/
theorem logout_idempotent_witness :
    (logout_organization (some "Bearer tok") [⟨"tok", 1, 100, false⟩]).1
      = .success 200 "Logged out successfully"
    ∧ (logout_organization none [⟨"tok", 1, 100, false⟩]).1
      = .failure 400 "No authentication token provided"
    ∧ (logout_organization (some "Bearer tok")
        (logout_organization (some "Bearer tok") [⟨"tok", 1, 100, false⟩]).2).2
      = (logout_organization (some "Bearer tok") [⟨"tok", 1, 100, false⟩]).2 :=
  ⟨(logout_idempotent (some "Bearer tok") [⟨"tok", 1, 100, false⟩]).2.2.1
      (by decide),
   (logout_idempotent none [⟨"tok", 1, 100, false⟩]).2.2.2 (by decide),
   (logout_idempotent (some "Bearer tok") [⟨"tok", 1, 100, false⟩]).1⟩

/-- C9: `verify_password` is a total boolean function and never throws; a
stored hash the PHC parser rejects yields `false`; a hash produced by
`hash_password` from password p verifies p and rejects a password with a
different digest; and the stored PHC hash string — which always begins with
`$` — differs from any plaintext password not beginning with `$`.  The
hypotheses are the standard idealization of the external Argon2 digest:
salt and digest are `$`-free (base64 in the real format), and distinct
passwords have distinct digests under the same salt. -/
theorem verify_password_contract (ar : String → String → String)
    (salt p p2 stored : String)
    (hs : '$' ∉ salt.data) (hd : '$' ∉ (ar salt p).data)
    (hcoll : ar salt p2 ≠ ar salt p)
    (hmal : phcParse stored = none)
    (hp : p.data.head? ≠ some '$') :
    verify_password ar p stored = false
    ∧ verify_password ar p (hash_password ar salt p).1 = true
    ∧ verify_password ar p2 (hash_password ar salt p).1 = false
    ∧ (hash_password ar salt p).1 ≠ p := by
  refine ⟨?_, ?_, ?_, ?_⟩
  · simp [verify_password, hmal]
  · simp [verify_password, phcParse_hash_password ar salt p hs hd]
  · simp [verify_password, phcParse_hash_password ar salt p hs hd, hcoll]
  · intro he
    apply hp
    rw [← he]
    exact hash_password_head ar salt p

/-- Witness for C9 with the digest modelled as password length (injective
on the chosen inputs), salt `saltsalt`, passwords `p` and `pq`, and the
unparseable stored hash `nothash`. -/
theorem verify_password_contract_witness :
    verify_password (fun _ q => toString q.length) "p" "nothash" = false
    ∧ verify_password (fun _ q => toString q.length) "p"
        (hash_password (fun _ q => toString q.length) "saltsalt" "p").1 = true
    ∧ verify_password (fun _ q => toString q.length) "pq"
        (hash_password (fun _ q => toString q.length) "saltsalt" "p").1 = false
    ∧ (hash_password (fun _ q => toString q.length) "saltsalt" "p").1 ≠ "p" :=
  verify_password_contract (fun _ q => toString q.length) "saltsalt" "p" "pq"
    "nothash" (by decide) (by decide) (by decide) (by decide) (by decide)

/-- C10: the login failure responses do not reveal whether an account
exists — an unknown email and a known email with a failing password check
produce the identical 401 response `Invalid credentials`, and the two calls
leave the token table identically unchanged. -/
theorem login_uniform_failure (ar : String → String → String)
    (orgs : List OrgCredRow) (e1 pw1 e2 pw2 tok : String) (now : Int)
    (toks : List TokenRow) (r : OrgCredRow)
    (h1 : orgs.find? (fun o => o.email == e1) = none)
    (h2 : orgs.find? (fun o => o.email == e2) = some r)
    (h3 : verify_password ar pw2 r.password_hash = false) :
    (login_organization ar e1 pw1 orgs tok now toks).1
      = .failure 401 "Invalid credentials"
    ∧ (login_organization ar e2 pw2 orgs tok now toks).1
      = .failure 401 "Invalid credentials"
    ∧ login_organization ar e1 pw1 orgs tok now toks
      = login_organization ar e2 pw2 orgs tok now toks := by
  refine ⟨?_, ?_, ?_⟩ <;> simp [login_organization, h1, h2, h3]

/-- Witness for C10: one organization `a@x.com` registered; the unknown
email `zz@x.com` and the known email with the wrong password produce the
same 401 response. -/
theorem login_uniform_failure_witness :
    (login_organization (fun _ _ => "D") "zz@x.com" "pw"
        [⟨1, "Acme", "a@x.com", "storedhash", "s"⟩] "tok" 0 []).1
      = .failure 401 "Invalid credentials"
    ∧ (login_organization (fun _ _ => "D") "a@x.com" "wrong"
        [⟨1, "Acme", "a@x.com", "storedhash", "s"⟩] "tok" 0 []).1
      = .failure 401 "Invalid credentials" :=
  ⟨(login_uniform_failure (fun _ _ => "D")
      [⟨1, "Acme", "a@x.com", "storedhash", "s"⟩] "zz@x.com" "pw" "a@x.com"
      "wrong" "tok" 0 [] ⟨1, "Acme", "a@x.com", "storedhash", "s"⟩
      (by decide) (by decide) (by decide)).1,
   (login_uniform_failure (fun _ _ => "D")
      [⟨1, "Acme", "a@x.com", "storedhash", "s"⟩] "zz@x.com" "pw" "a@x.com"
      "wrong" "tok" 0 [] ⟨1, "Acme", "a@x.com", "storedhash", "s"⟩
      (by decide) (by decide) (by decide)).2.1⟩
